import Mathlib

/-!
Verification of the Astrale asteroid-impact simulator core: the indicator
engine (features/simulation/utils.ts) and the orbital kinematics model with
its selection-driven override layer (features/simulation/SimulationViewport.tsx).
Numbers are modelled as real numbers; JavaScript Math.log10, Math.pow,
Math.sqrt, Math.cos and Math.sin become Real.logb 10, Real.rpow, Real.sqrt,
Real.cos and Real.sin.
-/

namespace Astrale

/-- The six UI-owned scalars (types.ts: SimulationParams). -/
structure SimulationParams where
  mass : ℝ
  radius : ℝ
  velocity : ℝ
  angle : ℝ
  gravity : ℝ
  density : ℝ

/-- The seven derived outputs (types.ts: DerivedIndicators). -/
structure DerivedIndicators where
  energy : ℝ
  energyMegaton : ℝ
  richter : ℝ
  craterDiameterKm : ℝ
  tsunamiHeight : ℝ
  warningHours : ℝ
  deflectionDelta : ℝ

/-- utils.ts: degToRad. -/
noncomputable def degToRad (value : ℝ) : ℝ := value * Real.pi / 180

/-- utils.ts: computeDerivedIndicators, translated line by line. -/
noncomputable def computeDerivedIndicators (params : SimulationParams) : DerivedIndicators :=
  let massKg := params.mass * 1e12
  let velocityMs := params.velocity * 1000
  let energy := 0.5 * massKg * velocityMs * velocityMs
  let energyMegaton := energy / 4.184e15
  let richter := max 0 ((Real.logb 10 energy - 4.8) / 1.5)
  let craterDiameterKm := max 0.8 (Real.rpow energyMegaton 0.29 * (1.1 + params.density * 0.08))
  let tsunamiHeight := min 80 (Real.rpow energyMegaton 0.36 * (if params.angle < 35 then 1.5 else 1))
  let warningHours := max 2 (18 - params.velocity * 0.2 + (40 - params.angle) * 0.1)
  let deflectionDelta := max 35 (params.mass * params.velocity / 6)
  ⟨energy, energyMegaton, richter, craterDiameterKm, tsunamiHeight, warningHours, deflectionDelta⟩

/-- The specification reference definition of the indicator engine, written
from the spec text of section 4.1 (massKg, velocityMs, energy as
0.5 × massKg × velocityMs², megaton, richter, crater, tsunami, warning,
deflection), to be compared against the source translation. -/
noncomputable def specComputeDerivedIndicators (params : SimulationParams) : DerivedIndicators :=
  let massKg := params.mass * 1e12
  let velocityMs := params.velocity * 1000
  let energy := 0.5 * massKg * velocityMs ^ 2
  let energyMegaton := energy / 4.184e15
  let richter := max 0 ((Real.logb 10 energy - 4.8) / 1.5)
  let craterDiameterKm := max 0.8 (Real.rpow energyMegaton 0.29 * (1.1 + params.density * 0.08))
  let tsunamiHeight := min 80 (Real.rpow energyMegaton 0.36 * (if params.angle < 35 then 1.5 else 1))
  let warningHours := max 2 (18 - params.velocity * 0.2 + (40 - params.angle) * 0.1)
  let deflectionDelta := max 35 (params.mass * params.velocity / 6)
  ⟨energy, energyMegaton, richter, craterDiameterKm, tsunamiHeight, warningHours, deflectionDelta⟩

/-- SimulationViewport.tsx: OrbitParameters. -/
structure OrbitParameters where
  semiMajorAxis : ℝ
  eccentricity : ℝ
  inclination : ℝ
  speed : ℝ
  phase : ℝ

/-- SimulationViewport.tsx: clamp. -/
noncomputable def clamp (value lo hi : ℝ) : ℝ := min hi (max lo value)

/-- three.js rotation of a point about the x axis (Quaternion.setFromAxisAngle
with axis (1,0,0) followed by applyQuaternion). -/
noncomputable def rotateX (i : ℝ) (p : ℝ × ℝ × ℝ) : ℝ × ℝ × ℝ :=
  (p.1, Real.cos i * p.2.1 - Real.sin i * p.2.2, Real.sin i * p.2.1 + Real.cos i * p.2.2)

/-- The common ellipse formula shared by the position sampler and the path
sampler: pre-tilt planar point of the orbit at angle theta. -/
noncomputable def ellipsePoint (orbit : OrbitParameters) (theta : ℝ) : ℝ × ℝ × ℝ :=
  (Real.cos theta * orbit.semiMajorAxis - orbit.semiMajorAxis * orbit.eccentricity,
   0,
   Real.sin theta * (orbit.semiMajorAxis * Real.sqrt (1 - orbit.eccentricity * orbit.eccentricity)))

/-- SimulationViewport.tsx, Planet/Asteroid useFrame body: the pre-tilt
planar orbit position at elapsed time t (angle = time × speed + phase,
x = cos(angle) × a − a × e, z = sin(angle) × semiMinor, y = 0). -/
noncomputable def orbitPlanarPosition (orbit : OrbitParameters) (t : ℝ) : ℝ × ℝ × ℝ :=
  let a := orbit.semiMajorAxis
  let e := orbit.eccentricity
  let orbitSemiMinor := a * Real.sqrt (1 - e * e)
  let angle := t * orbit.speed + orbit.phase
  (Real.cos angle * a - a * e, 0, Real.sin angle * orbitSemiMinor)

/-- SimulationViewport.tsx, Planet/Asteroid useFrame body: the final 3D
orbit position, the planar point tilted by the inclination quaternion. -/
noncomputable def sampleOrbitPosition (orbit : OrbitParameters) (t : ℝ) : ℝ × ℝ × ℝ :=
  rotateX orbit.inclination (orbitPlanarPosition orbit t)

/-- SimulationViewport.tsx, OrbitPath useMemo body: the i-th sampled point
of the static orbit trace (theta = (i / segmentCount) × π × 2). -/
noncomputable def orbitPathPoint (orbit : OrbitParameters) (segmentCount : ℕ) (i : ℕ) : ℝ × ℝ × ℝ :=
  let a := orbit.semiMajorAxis
  let e := orbit.eccentricity
  let b := a * Real.sqrt (1 - e * e)
  let theta := ((i : ℝ) / (segmentCount : ℝ)) * Real.pi * 2
  rotateX orbit.inclination (Real.cos theta * a - a * e, 0, Real.sin theta * b)

/-- SimulationViewport.tsx, OrbitPath useMemo body: the full sampled trace,
one point per loop iteration i = 0 .. segmentCount. -/
noncomputable def sampleOrbitPath (orbit : OrbitParameters) (segmentCount : ℕ) : List (ℝ × ℝ × ℝ) :=
  (List.range (segmentCount + 1)).map (orbitPathPoint orbit segmentCount)

/-- SimulationViewport.tsx: ORBIT_SEGMENTS. -/
def ORBIT_SEGMENTS : ℕ := 240

/-- SimulationViewport.tsx: AU_TO_SCENE_UNITS. -/
noncomputable def AU_TO_SCENE_UNITS : ℝ := 32

/-- SimulationViewport.tsx: SPEED_SCALE. -/
noncomputable def SPEED_SCALE : ℝ := 0.12

/-- SimulationViewport.tsx: INCLINATION_MULTIPLIER. -/
noncomputable def INCLINATION_MULTIPLIER : ℝ := 3

/-- SimulationViewport.tsx: getSemiMajorAxis. -/
noncomputable def getSemiMajorAxis (distanceAu : ℝ) : ℝ := distanceAu * AU_TO_SCENE_UNITS

/-- SimulationViewport.tsx: EARTH_SEMI_MAJOR_AXIS. -/
noncomputable def EARTH_SEMI_MAJOR_AXIS : ℝ := getSemiMajorAxis 1

/-- SimulationViewport.tsx: EARTH_ORBIT_ECCENTRICITY. -/
noncomputable def EARTH_ORBIT_ECCENTRICITY : ℝ := 0.0167

/-- SimulationViewport.tsx: EARTH_SEMI_MINOR_AXIS. -/
noncomputable def EARTH_SEMI_MINOR_AXIS : ℝ :=
  EARTH_SEMI_MAJOR_AXIS * Real.sqrt (1 - EARTH_ORBIT_ECCENTRICITY * EARTH_ORBIT_ECCENTRICITY)

/-- SimulationViewport.tsx: EARTH_ORBIT_TILT. -/
noncomputable def EARTH_ORBIT_TILT : ℝ := degToRad (0 * INCLINATION_MULTIPLIER)

/-- SimulationViewport.tsx: EARTH_ORBIT_SPEED. -/
noncomputable def EARTH_ORBIT_SPEED : ℝ := 1 * SPEED_SCALE

/-- SimulationViewport.tsx: EARTH_VERTICAL_OFFSET. -/
noncomputable def EARTH_VERTICAL_OFFSET : ℝ := 0

/-- SimulationViewport.tsx: the orbit field of earthDefinition. -/
noncomputable def earthOrbit : OrbitParameters :=
  ⟨EARTH_SEMI_MAJOR_AXIS, EARTH_ORBIT_ECCENTRICITY, EARTH_ORBIT_TILT, EARTH_ORBIT_SPEED, 0⟩

open Classical in
/-- SimulationViewport.tsx, Earth useFrame body with no focus override
(speed multiplier 1, tilt offset 0): angle = time × orbitSpeed, planar
ellipse point, quaternion applied only when EARTH_ORBIT_TILT is non-zero,
then the vertical offset added to y. -/
noncomputable def earthSampleOrbitPosition (t : ℝ) : ℝ × ℝ × ℝ :=
  let angle := t * EARTH_ORBIT_SPEED
  let x := Real.cos angle * EARTH_SEMI_MAJOR_AXIS - EARTH_SEMI_MAJOR_AXIS * EARTH_ORBIT_ECCENTRICITY
  let z := Real.sin angle * EARTH_SEMI_MINOR_AXIS
  let pos : ℝ × ℝ × ℝ := (x, 0, z)
  let tilted := if EARTH_ORBIT_TILT ≠ 0 then rotateX EARTH_ORBIT_TILT pos else pos
  (tilted.1, tilted.2.1 + EARTH_VERTICAL_OFFSET, tilted.2.2)

/-- SimulationViewport.tsx, Planet component line radiusMultiplier: the
rendered-size multiplier of a non-Earth body (1 unless the body is selected
with active parameters). -/
noncomputable def planetRadiusMultiplier (isSelected : Bool) (activeParams : Option SimulationParams) : ℝ :=
  match isSelected, activeParams with
  | true, some p => clamp (1 + p.radius * 0.08) 0.4 4.2
  | _, _ => 1

/-- SimulationViewport.tsx, Planet component line speedMultiplier. -/
noncomputable def planetSpeedMultiplier (isSelected : Bool) (activeParams : Option SimulationParams) : ℝ :=
  match isSelected, activeParams with
  | true, some p => clamp (1 + p.velocity * 0.03) 0.25 4.5
  | _, _ => 1

/-- SimulationViewport.tsx, Planet component line rotationMultiplier. -/
noncomputable def planetRotationMultiplier (isSelected : Bool) (activeParams : Option SimulationParams) : ℝ :=
  match isSelected, activeParams with
  | true, some p => clamp (1 + p.mass * 0.005) 0.5 4.2
  | _, _ => 1

/-- SimulationViewport.tsx, Planet component line tiltOffset. -/
noncomputable def planetTiltOffset (isSelected : Bool) (activeParams : Option SimulationParams) : ℝ :=
  match isSelected, activeParams with
  | true, some p => degToRad p.angle * 0.02
  | _, _ => 0

/-- SimulationViewport.tsx, Planet component line orbitSpeed. -/
noncomputable def planetOrbitSpeed (orbit : OrbitParameters) (isSelected : Bool)
    (activeParams : Option SimulationParams) : ℝ :=
  orbit.speed * planetSpeedMultiplier isSelected activeParams

/-- SimulationViewport.tsx, Planet component line orbitInclination. -/
noncomputable def planetOrbitInclination (orbit : OrbitParameters) (isSelected : Bool)
    (activeParams : Option SimulationParams) : ℝ :=
  orbit.inclination + planetTiltOffset isSelected activeParams

/-- SimulationViewport.tsx, Earth component line radiusMultiplier (bounds
0.5 and 4, unlike the Planet component). -/
noncomputable def earthRadiusMultiplier (isSelected : Bool) (activeParams : Option SimulationParams) : ℝ :=
  match isSelected, activeParams with
  | true, some p => clamp (1 + p.radius * 0.08) 0.5 4
  | _, _ => 1

/-- SimulationViewport.tsx, Earth component line speedMultiplier. -/
noncomputable def earthSpeedMultiplier (isSelected : Bool) (activeParams : Option SimulationParams) : ℝ :=
  match isSelected, activeParams with
  | true, some p => clamp (1 + p.velocity * 0.03) 0.25 4.5
  | _, _ => 1

/-- SimulationViewport.tsx, Earth component line rotationMultiplier (bounds
0.5 and 4, unlike the Planet component). -/
noncomputable def earthRotationMultiplier (isSelected : Bool) (activeParams : Option SimulationParams) : ℝ :=
  match isSelected, activeParams with
  | true, some p => clamp (1 + p.mass * 0.005) 0.5 4
  | _, _ => 1

/-- SimulationViewport.tsx, Earth component line tiltOffset. -/
noncomputable def earthTiltOffset (isSelected : Bool) (activeParams : Option SimulationParams) : ℝ :=
  match isSelected, activeParams with
  | true, some p => degToRad p.angle * 0.02
  | _, _ => 0

/-- SimulationViewport.tsx, SimulationViewport component: a body is rendered
as selected exactly when the focus state names it. -/
def isSelectedBody (focused : Option String) (body : String) : Bool :=
  focused == some body

/-- SimulationViewport.tsx, SimulationViewport component: the activeParams
prop passed to a body — the live parameter snapshot when the body is the
focused one, null otherwise. -/
def activeParamsFor (focused : Option String) (params : SimulationParams) (body : String) :
    Option SimulationParams :=
  if focused == some body then some params else none

end Astrale

namespace Astrale

/-- C1: for every SimulationParams input, computeDerivedIndicators returns
exactly the seven values of the specification reference definition. -/
theorem computeDerivedIndicators_eq_spec (p : SimulationParams) :
    computeDerivedIndicators p = specComputeDerivedIndicators p := by
  have hE : 0.5 * (p.mass * 1e12) * (p.velocity * 1000) * (p.velocity * 1000)
      = 0.5 * (p.mass * 1e12) * (p.velocity * 1000) ^ 2 := by ring
  simp only [computeDerivedIndicators, specComputeDerivedIndicators, hE]

/-- C9: gravity and radius have no influence on any of the seven outputs:
two parameter records agreeing on mass, velocity, angle and density produce
identical DerivedIndicators. -/
theorem computeDerivedIndicators_noninterference (p q : SimulationParams)
    (hm : p.mass = q.mass) (hv : p.velocity = q.velocity)
    (ha : p.angle = q.angle) (hd : p.density = q.density) :
    computeDerivedIndicators p = computeDerivedIndicators q := by
  simp only [computeDerivedIndicators, hm, hv, ha, hd]

/-- C9 witness: two concrete parameter records differing only in gravity and
radius yield identical indicators. -/
theorem computeDerivedIndicators_noninterference_witness :
    computeDerivedIndicators ⟨28, 0.9, 22, 37, 9.81, 3.1⟩
      = computeDerivedIndicators ⟨28, 2.5, 22, 37, 7.5, 3.1⟩ :=
  computeDerivedIndicators_noninterference _ _ rfl rfl rfl rfl

/-- C10: for velocity in the legal range 10..45 and angle in 5..80, the
max(2, ·) floor in warningHours is never active: the output equals the raw
linear expression and is always at least 5. -/
theorem warningHours_floor_inactive (p : SimulationParams)
    (hv1 : 10 ≤ p.velocity) (hv2 : p.velocity ≤ 45)
    (ha1 : 5 ≤ p.angle) (ha2 : p.angle ≤ 80) :
    (computeDerivedIndicators p).warningHours
        = 18 - p.velocity * 0.2 + (40 - p.angle) * 0.1
      ∧ 5 ≤ (computeDerivedIndicators p).warningHours := by
  have hraw : (5 : ℝ) ≤ 18 - p.velocity * 0.2 + (40 - p.angle) * 0.1 := by linarith
  have hmax : max (2 : ℝ) (18 - p.velocity * 0.2 + (40 - p.angle) * 0.1)
      = 18 - p.velocity * 0.2 + (40 - p.angle) * 0.1 :=
    max_eq_right (by linarith)
  constructor
  · simp only [computeDerivedIndicators]
    exact hmax
  · simp only [computeDerivedIndicators]
    rw [hmax]
    exact hraw

/-- C2 counterexample: the claim says every body, Earth included, uses the
clamp bounds 0.4 and 4.2 for the rendered-size multiplier; but the Earth
component clamps to 0.5 and 4, so at radius 50 Earth yields 4 while the
claimed formula yields 4.2. -/
theorem earth_bounds_counterexample :
    earthRadiusMultiplier true (some ⟨1, 50, 1, 1, 1, 1⟩)
      ≠ clamp (1 + 50 * 0.08) 0.4 4.2 := by
  have h1 : earthRadiusMultiplier true (some ⟨1, 50, 1, 1, 1, 1⟩) = 4 := by
    simp only [earthRadiusMultiplier, clamp]
    rw [max_eq_right (by norm_num : (0.5 : ℝ) ≤ 1 + 50 * 0.08),
      min_eq_left (by norm_num : (4 : ℝ) ≤ 1 + 50 * 0.08)]
  have h2 : clamp (1 + 50 * 0.08) 0.4 4.2 = 4.2 := by
    simp only [clamp]
    rw [max_eq_right (by norm_num : (0.4 : ℝ) ≤ 1 + 50 * 0.08),
      min_eq_left (by norm_num : (4.2 : ℝ) ≤ 1 + 50 * 0.08)]
  rw [h1, h2]
  norm_num

/-- C2 amended: while focused, a non-Earth body uses rendered-size
multiplier clamp(1 + radius×0.08, 0.4, 4.2), orbital speed multiplier
clamp(1 + velocity×0.03, 0.25, 4.5), spin multiplier
clamp(1 + mass×0.005, 0.5, 4.2) and tilt offset degToRad(angle)×0.02 added
to the static inclination; the Earth component uses the same speed
multiplier and tilt offset but clamps its size and spin multipliers to 0.5
and 4 instead. -/
theorem focused_body_multipliers (p : SimulationParams) (orbit : OrbitParameters) :
    planetRadiusMultiplier true (some p) = clamp (1 + p.radius * 0.08) 0.4 4.2
  ∧ planetOrbitSpeed orbit true (some p) = orbit.speed * clamp (1 + p.velocity * 0.03) 0.25 4.5
  ∧ planetRotationMultiplier true (some p) = clamp (1 + p.mass * 0.005) 0.5 4.2
  ∧ planetOrbitInclination orbit true (some p) = orbit.inclination + degToRad p.angle * 0.02
  ∧ earthRadiusMultiplier true (some p) = clamp (1 + p.radius * 0.08) 0.5 4
  ∧ earthSpeedMultiplier true (some p) = clamp (1 + p.velocity * 0.03) 0.25 4.5
  ∧ earthRotationMultiplier true (some p) = clamp (1 + p.mass * 0.005) 0.5 4
  ∧ earthTiltOffset true (some p) = degToRad p.angle * 0.02 :=
  ⟨rfl, rfl, rfl, rfl, rfl, rfl, rfl, rfl⟩

/-- C3: the sampled position is the pre-tilt planar ellipse point
x = cos(t×speed + phase)×a − a×e, y = 0, z = sin(t×speed + phase)×b with
b = a×sqrt(1 − e²), rotated by the inclination about the fixed x axis; the
Earth useFrame body computes the same function of its own orbit record, so
the focus offset −a×e is applied for every body. -/
theorem sampleOrbitPosition_formula (orbit : OrbitParameters) (t : ℝ)
    (he1 : 0 ≤ orbit.eccentricity) (he2 : orbit.eccentricity < 1) :
    sampleOrbitPosition orbit t
      = rotateX orbit.inclination
          (Real.cos (t * orbit.speed + orbit.phase) * orbit.semiMajorAxis
             - orbit.semiMajorAxis * orbit.eccentricity,
           0,
           Real.sin (t * orbit.speed + orbit.phase)
             * (orbit.semiMajorAxis * Real.sqrt (1 - orbit.eccentricity ^ 2)))
  ∧ earthSampleOrbitPosition t = sampleOrbitPosition earthOrbit t := by
  have hT : EARTH_ORBIT_TILT = 0 := by
    simp [EARTH_ORBIT_TILT, degToRad]
  constructor
  · simp only [sampleOrbitPosition, orbitPlanarPosition, pow_two]
  · simp only [earthSampleOrbitPosition, sampleOrbitPosition, orbitPlanarPosition, earthOrbit,
      rotateX, hT, EARTH_SEMI_MINOR_AXIS, EARTH_VERTICAL_OFFSET]
    norm_num [Real.cos_zero, Real.sin_zero]

/-- C3 witness: the formula and the Earth agreement hold at a concrete
orbit with eccentricity one half and at elapsed time five. -/
theorem sampleOrbitPosition_formula_witness :
    (0 : ℝ) ≤ 0.5 ∧ (0.5 : ℝ) < 1 ∧
    (sampleOrbitPosition ⟨2, 0.5, 0.3, 1.1, 0.7⟩ 5
        = rotateX (0.3 : ℝ)
            (Real.cos ((5 : ℝ) * 1.1 + 0.7) * 2 - 2 * 0.5,
             0,
             Real.sin ((5 : ℝ) * 1.1 + 0.7) * (2 * Real.sqrt (1 - (0.5 : ℝ) ^ 2)))
      ∧ earthSampleOrbitPosition 5 = sampleOrbitPosition earthOrbit 5) :=
  ⟨by norm_num, by norm_num,
    sampleOrbitPosition_formula ⟨2, 0.5, 0.3, 1.1, 0.7⟩ 5 (by norm_num) (by norm_num)⟩

/-- C6: at most one body has overrides active (two selected bodies are the
same body); a non-focused body keeps its static speed, inclination and unit
multipliers; and with no focus at all (the state after deselection) every
body samples with its static parameters, zero residual override. -/
theorem selection_override_invariant (f : Option String) (params : SimulationParams)
    (b1 b2 b : String) (orbit : OrbitParameters)
    (hsel1 : isSelectedBody f b1 = true) (hsel2 : isSelectedBody f b2 = true)
    (hb : isSelectedBody f b = false) :
    b1 = b2
  ∧ planetOrbitSpeed orbit (isSelectedBody f b) (activeParamsFor f params b) = orbit.speed
  ∧ planetOrbitInclination orbit (isSelectedBody f b) (activeParamsFor f params b) = orbit.inclination
  ∧ planetRadiusMultiplier (isSelectedBody f b) (activeParamsFor f params b) = 1
  ∧ planetRotationMultiplier (isSelectedBody f b) (activeParamsFor f params b) = 1
  ∧ planetOrbitSpeed orbit (isSelectedBody none b) (activeParamsFor none params b) = orbit.speed
  ∧ planetOrbitInclination orbit (isSelectedBody none b) (activeParamsFor none params b) = orbit.inclination := by
  have he1 : f = some b1 := by simpa [isSelectedBody] using hsel1
  have he2 : f = some b2 := by simpa [isSelectedBody] using hsel2
  have hne : (f == some b) = false := by simpa [isSelectedBody] using hb
  have haP : activeParamsFor f params b = none := by simp [activeParamsFor, hne]
  refine ⟨Option.some.inj (he1 ▸ he2), ?_, ?_, ?_, ?_, ?_, ?_⟩
  · rw [hb, haP]
    simp [planetOrbitSpeed, planetSpeedMultiplier]
  · rw [hb, haP]
    simp [planetOrbitInclination, planetTiltOffset]
  · rw [hb, haP]
    simp [planetRadiusMultiplier]
  · rw [hb, haP]
    simp [planetRotationMultiplier]
  · simp [planetOrbitSpeed, planetSpeedMultiplier, isSelectedBody, activeParamsFor]
  · simp [planetOrbitInclination, planetTiltOffset, isSelectedBody, activeParamsFor]

/-- C6 witness: with Terre focused, Mars keeps its static speed and
inclination and unit multipliers, and after deselection so does every
body. -/
theorem selection_override_invariant_witness :
    isSelectedBody (some "Terre") "Terre" = true ∧
    isSelectedBody (some "Terre") "Mars" = false ∧
    ("Terre" = "Terre"
      ∧ planetOrbitSpeed ⟨1, 0.1, 0.2, 2, 0.3⟩ (isSelectedBody (some "Terre") "Mars")
          (activeParamsFor (some "Terre") ⟨28, 0.9, 22, 37, 9.81, 3.1⟩ "Mars") = (2 : ℝ)
      ∧ planetOrbitInclination ⟨1, 0.1, 0.2, 2, 0.3⟩ (isSelectedBody (some "Terre") "Mars")
          (activeParamsFor (some "Terre") ⟨28, 0.9, 22, 37, 9.81, 3.1⟩ "Mars") = (0.2 : ℝ)
      ∧ planetRadiusMultiplier (isSelectedBody (some "Terre") "Mars")
          (activeParamsFor (some "Terre") ⟨28, 0.9, 22, 37, 9.81, 3.1⟩ "Mars") = 1
      ∧ planetRotationMultiplier (isSelectedBody (some "Terre") "Mars")
          (activeParamsFor (some "Terre") ⟨28, 0.9, 22, 37, 9.81, 3.1⟩ "Mars") = 1
      ∧ planetOrbitSpeed ⟨1, 0.1, 0.2, 2, 0.3⟩ (isSelectedBody none "Mars")
          (activeParamsFor none ⟨28, 0.9, 22, 37, 9.81, 3.1⟩ "Mars") = (2 : ℝ)
      ∧ planetOrbitInclination ⟨1, 0.1, 0.2, 2, 0.3⟩ (isSelectedBody none "Mars")
          (activeParamsFor none ⟨28, 0.9, 22, 37, 9.81, 3.1⟩ "Mars") = (0.2 : ℝ)) :=
  ⟨rfl, rfl,
    selection_override_invariant (some "Terre") ⟨28, 0.9, 22, 37, 9.81, 3.1⟩
      "Terre" "Terre" "Mars" ⟨1, 0.1, 0.2, 2, 0.3⟩ rfl rfl rfl⟩

/-- C7: the orbit-path sampler returns exactly segmentCount + 1 points,
each the shared ellipse formula rotated by the inclination and evaluated at
the evenly spaced angle (i / segmentCount) × 2π, the first and last points
coincide, and the source segment count is 240. -/
theorem sampleOrbitPath_spec (orbit : OrbitParameters) (n : ℕ) (hn : 0 < n) :
    (sampleOrbitPath orbit n).length = n + 1
  ∧ (∀ i : ℕ, i ≤ n → (sampleOrbitPath orbit n)[i]? =
        some (rotateX orbit.inclination (ellipsePoint orbit ((i : ℝ) / (n : ℝ) * Real.pi * 2))))
  ∧ (sampleOrbitPath orbit n)[0]? = (sampleOrbitPath orbit n)[n]?
  ∧ ORBIT_SEGMENTS = 240 := by
  have hpoint : ∀ i : ℕ, i ≤ n →
      (sampleOrbitPath orbit n)[i]? = some (orbitPathPoint orbit n i) := by
    intro i hi
    simp [sampleOrbitPath, List.getElem?_range, Nat.lt_succ_of_le hi]
  refine ⟨?_, ?_, ?_, rfl⟩
  · simp [sampleOrbitPath]
  · intro i hi
    rw [hpoint i hi]
    rfl
  · rw [hpoint 0 (Nat.zero_le n), hpoint n le_rfl]
    have hcast : ((n : ℕ) : ℝ) ≠ 0 := Nat.cast_ne_zero.mpr hn.ne'
    have h1 : ((n : ℕ) : ℝ) / ((n : ℕ) : ℝ) * Real.pi * 2 = 2 * Real.pi := by
      rw [div_self hcast]
      ring
    simp only [orbitPathPoint]
    norm_num [h1, Real.cos_two_pi, Real.sin_two_pi]

/-- C7 witness: at segment count 240 and a concrete orbit the path has 241
points, matches the ellipse formula at each index, and closes the loop. -/
theorem sampleOrbitPath_spec_witness :
    0 < 240 ∧
    ((sampleOrbitPath ⟨2, 0.5, 0.3, 1.1, 0.7⟩ 240).length = 240 + 1
      ∧ (∀ i : ℕ, i ≤ 240 → (sampleOrbitPath ⟨2, 0.5, 0.3, 1.1, 0.7⟩ 240)[i]? =
            some (rotateX (0.3 : ℝ)
              (ellipsePoint ⟨2, 0.5, 0.3, 1.1, 0.7⟩ ((i : ℝ) / ((240 : ℕ) : ℝ) * Real.pi * 2))))
      ∧ (sampleOrbitPath ⟨2, 0.5, 0.3, 1.1, 0.7⟩ 240)[0]?
          = (sampleOrbitPath ⟨2, 0.5, 0.3, 1.1, 0.7⟩ 240)[240]?
      ∧ ORBIT_SEGMENTS = 240) :=
  ⟨by norm_num, sampleOrbitPath_spec ⟨2, 0.5, 0.3, 1.1, 0.7⟩ 240 (by norm_num)⟩

/-- C8 counterexample: the claim asserts the pre-tilt position at elapsed
time zero is x = a×(1−e), z = 0 for every OrbitParameters; with a = 1,
e = 0 and phase = π the sampled x is cos(π) = −1, not a×(1−e) = 1. -/
theorem periapsis_time_zero_counterexample :
    (orbitPlanarPosition ⟨1, 0, 0, 1, Real.pi⟩ 0).1 ≠ (1 : ℝ) * (1 - 0) := by
  simp only [orbitPlanarPosition]
  norm_num [Real.cos_pi]

/-- C8 amended: at elapsed time zero the pre-tilt angle is the phase, so
x = cos(phase)×a − a×e for every orbit; when phase = 0 the point is the
periapsis, x = a×(1−e) and z = 0 before the tilt is applied. -/
theorem orbitPosition_time_zero (orbit : OrbitParameters) (hphase : orbit.phase = 0) :
    (orbitPlanarPosition orbit 0).1
        = Real.cos orbit.phase * orbit.semiMajorAxis - orbit.semiMajorAxis * orbit.eccentricity
  ∧ (orbitPlanarPosition orbit 0).1 = orbit.semiMajorAxis * (1 - orbit.eccentricity)
  ∧ (orbitPlanarPosition orbit 0).2.2 = 0 := by
  refine ⟨?_, ?_, ?_⟩
  · simp [orbitPlanarPosition]
  · simp only [orbitPlanarPosition, hphase, zero_mul, add_zero, Real.cos_zero, one_mul]
    ring
  · simp [orbitPlanarPosition, hphase]

/-- C8 amended witness: at a concrete orbit with phase zero the time-zero
sample is the periapsis point. -/
theorem orbitPosition_time_zero_witness :
    (OrbitParameters.mk 3 0.25 0.1 2 0).phase = 0 ∧
    ((orbitPlanarPosition ⟨3, 0.25, 0.1, 2, 0⟩ 0).1
        = Real.cos (OrbitParameters.mk 3 0.25 0.1 2 0).phase * 3 - 3 * 0.25
      ∧ (orbitPlanarPosition ⟨3, 0.25, 0.1, 2, 0⟩ 0).1 = 3 * (1 - 0.25)
      ∧ (orbitPlanarPosition ⟨3, 0.25, 0.1, 2, 0⟩ 0).2.2 = 0) :=
  ⟨rfl, orbitPosition_time_zero ⟨3, 0.25, 0.1, 2, 0⟩ rfl⟩

/-- C4: over the legal parameter ranges the indicator engine is total and
well behaved: energy and energyMegaton are strictly positive (hence finite
and non-negative in the real-number model), richter is non-negative, the
crater floor 0.8, the tsunami ceiling 80, the warning floor 2 and the
deflection floor 35 all hold, and tsunamiHeight is positive. -/
theorem computeDerivedIndicators_bounds (p : SimulationParams)
    (hm1 : 2 ≤ p.mass) (hm2 : p.mass ≤ 80)
    (hr1 : 0.1 ≤ p.radius) (hr2 : p.radius ≤ 2.5)
    (hv1 : 10 ≤ p.velocity) (hv2 : p.velocity ≤ 45)
    (ha1 : 5 ≤ p.angle) (ha2 : p.angle ≤ 80)
    (hg1 : 7.5 ≤ p.gravity) (hg2 : p.gravity ≤ 11.5)
    (hd1 : 1.5 ≤ p.density) (hd2 : p.density ≤ 5.5) :
    0 < (computeDerivedIndicators p).energy
  ∧ 0 < (computeDerivedIndicators p).energyMegaton
  ∧ 0 ≤ (computeDerivedIndicators p).richter
  ∧ 0.8 ≤ (computeDerivedIndicators p).craterDiameterKm
  ∧ 0 < (computeDerivedIndicators p).tsunamiHeight
  ∧ (computeDerivedIndicators p).tsunamiHeight ≤ 80
  ∧ 2 ≤ (computeDerivedIndicators p).warningHours
  ∧ 35 ≤ (computeDerivedIndicators p).deflectionDelta := by
  have hm : (0 : ℝ) < p.mass := by linarith
  have hv : (0 : ℝ) < p.velocity := by linarith
  have hmk : (0 : ℝ) < p.mass * 1e12 := by nlinarith
  have hvm : (0 : ℝ) < p.velocity * 1000 := by nlinarith
  have hE : (0 : ℝ) < 0.5 * (p.mass * 1e12) * (p.velocity * 1000) * (p.velocity * 1000) := by
    have h1 : (0 : ℝ) < 0.5 * (p.mass * 1e12) := by nlinarith
    exact mul_pos (mul_pos h1 hvm) hvm
  have hEM : (0 : ℝ) < 0.5 * (p.mass * 1e12) * (p.velocity * 1000) * (p.velocity * 1000) / 4.184e15 := by
    apply div_pos hE
    norm_num
  have hmult : (0 : ℝ) < (if p.angle < 35 then (1.5 : ℝ) else 1) := by
    split <;> norm_num
  simp only [computeDerivedIndicators]
  refine ⟨hE, hEM, le_max_left 0 _, le_max_left 0.8 _, ?_, min_le_left 80 _, le_max_left 2 _,
    le_max_left 35 _⟩
  exact lt_min (by norm_num) (mul_pos (Real.rpow_pos_of_pos hEM 0.36) hmult)

/-- C4 witness: the bounds hold at the concrete legal input of spec
scenario 1. -/
theorem computeDerivedIndicators_bounds_witness :
    (2 : ℝ) ≤ 28 ∧ (28 : ℝ) ≤ 80 ∧ (0.1 : ℝ) ≤ 0.9 ∧ (0.9 : ℝ) ≤ 2.5 ∧
    (10 : ℝ) ≤ 22 ∧ (22 : ℝ) ≤ 45 ∧ (5 : ℝ) ≤ 37 ∧ (37 : ℝ) ≤ 80 ∧
    (7.5 : ℝ) ≤ 9.81 ∧ (9.81 : ℝ) ≤ 11.5 ∧ (1.5 : ℝ) ≤ 3.1 ∧ (3.1 : ℝ) ≤ 5.5 ∧
    (0 < (computeDerivedIndicators ⟨28, 0.9, 22, 37, 9.81, 3.1⟩).energy
      ∧ 0 < (computeDerivedIndicators ⟨28, 0.9, 22, 37, 9.81, 3.1⟩).energyMegaton
      ∧ 0 ≤ (computeDerivedIndicators ⟨28, 0.9, 22, 37, 9.81, 3.1⟩).richter
      ∧ 0.8 ≤ (computeDerivedIndicators ⟨28, 0.9, 22, 37, 9.81, 3.1⟩).craterDiameterKm
      ∧ 0 < (computeDerivedIndicators ⟨28, 0.9, 22, 37, 9.81, 3.1⟩).tsunamiHeight
      ∧ (computeDerivedIndicators ⟨28, 0.9, 22, 37, 9.81, 3.1⟩).tsunamiHeight ≤ 80
      ∧ 2 ≤ (computeDerivedIndicators ⟨28, 0.9, 22, 37, 9.81, 3.1⟩).warningHours
      ∧ 35 ≤ (computeDerivedIndicators ⟨28, 0.9, 22, 37, 9.81, 3.1⟩).deflectionDelta) :=
  ⟨by norm_num, by norm_num, by norm_num, by norm_num, by norm_num, by norm_num,
    by norm_num, by norm_num, by norm_num, by norm_num, by norm_num, by norm_num,
    computeDerivedIndicators_bounds ⟨28, 0.9, 22, 37, 9.81, 3.1⟩
      (by norm_num) (by norm_num) (by norm_num) (by norm_num) (by norm_num) (by norm_num)
      (by norm_num) (by norm_num) (by norm_num) (by norm_num) (by norm_num) (by norm_num)⟩

/-- C5: the tsunami multiplier is 1.5 exactly when angle is strictly below
35 and 1 otherwise: with all other parameters held fixed, angle 34.999
yields min(80, energyMegaton^0.36 × 1.5) and angle 35.0 yields
min(80, energyMegaton^0.36), a sharp threshold at 35. -/
theorem tsunamiHeight_threshold (m r v g d : ℝ) :
    (computeDerivedIndicators ⟨m, r, v, 34.999, g, d⟩).tsunamiHeight
      = min 80 (Real.rpow (computeDerivedIndicators ⟨m, r, v, 34.999, g, d⟩).energyMegaton 0.36 * 1.5)
  ∧ (computeDerivedIndicators ⟨m, r, v, 35, g, d⟩).tsunamiHeight
      = min 80 (Real.rpow (computeDerivedIndicators ⟨m, r, v, 35, g, d⟩).energyMegaton 0.36) := by
  constructor
  · simp only [computeDerivedIndicators]
    rw [if_pos (by norm_num : (34.999 : ℝ) < 35)]
  · simp only [computeDerivedIndicators]
    rw [if_neg (by norm_num : ¬ (35 : ℝ) < 35), mul_one]

/-- C10 witness: at velocity 45 and angle 80 the warning time is the raw
linear value and is at least 5. -/
theorem warningHours_floor_inactive_witness :
    (10 : ℝ) ≤ 45 ∧ (45 : ℝ) ≤ 45 ∧ (5 : ℝ) ≤ 80 ∧ (80 : ℝ) ≤ 80 ∧
    ((computeDerivedIndicators ⟨2, 0.1, 45, 80, 9.81, 3⟩).warningHours
        = 18 - (45 : ℝ) * 0.2 + (40 - (80 : ℝ)) * 0.1
      ∧ 5 ≤ (computeDerivedIndicators ⟨2, 0.1, 45, 80, 9.81, 3⟩).warningHours) :=
  ⟨by norm_num, by norm_num, by norm_num, by norm_num,
    warningHours_floor_inactive ⟨2, 0.1, 45, 80, 9.81, 3⟩
      (by norm_num) (by norm_num) (by norm_num) (by norm_num)⟩

end Astrale
